import Mathlib

/-!
Verification of the Ishigaki tour system (frontend + SQL schema).

The data model is embedded from `frontend/src/types` (the `Guest`,
`Vehicle`, `Tour` and `OptimizationJobStatus` interfaces), and the
operations from the React pages: `TourCreatePage.tsx`
(`calculateTotalCapacity`, `calculateTotalGuests`, `validateForm`,
`handleSubmit`, `loadGuestsAndVehicles`), `OptimizationPage.tsx`
(`handleOptimize`, `pollOptimizationStatus`) and
`OptimizationMap.tsx` (the route-rendering effect).  The repository
contains no backend optimization-engine code; where a claim is decided
by that missing engine, the corresponding definition is modelled from
the specification and marked `Modelled from the spec:`.
-/

/-- Vehicle status union type from `types.ts`:
`'available' | 'in_use' | 'maintenance'`. -/
inductive VehicleStatus where
  | available
  | in_use
  | maintenance
  deriving DecidableEq

/-- Vehicle type union from `types.ts`: `'sedan' | 'van' | 'minibus'`. -/
inductive VehicleType where
  | sedan
  | van
  | minibus
  deriving DecidableEq

/-- The `Guest` interface of `types.ts`.  Latitude/longitude are embedded
as rationals; optional fields as `Option`. -/
structure Guest where
  id : String
  name : String
  hotel_name : Option String
  pickup_lat : Option ℚ
  pickup_lng : Option ℚ
  num_adults : Nat
  num_children : Nat
  preferred_pickup_start : Option String
  preferred_pickup_end : Option String
  phone : Option String
  email : Option String
  special_requirements : List String
  deriving DecidableEq

/-- The `Vehicle` interface of `types.ts`. -/
structure Vehicle where
  id : String
  name : String
  capacity_adults : Nat
  capacity_children : Nat
  driver_name : Option String
  driver_phone : Option String
  current_lat : Option ℚ
  current_lng : Option ℚ
  vehicle_type : Option VehicleType
  fuel_type : Option String
  license_plate : Option String
  status : Option VehicleStatus
  equipment : List String
  deriving DecidableEq

/-- The component state of `TourCreatePage` that its handlers read:
`tourDate`, `activityType`, `destinationName`, `destinationCoords`,
`departureTime`, `selectedGuests`, `vehicles` (the fetched list),
`selectedVehicles` and `autoSelectVehicles`.  Dates and times are kept
as opaque strings. -/
structure TourForm where
  tourDate : Option String
  activityType : String
  destinationName : String
  destinationLat : ℚ
  destinationLng : ℚ
  departureTime : Option String
  selectedGuests : List Guest
  vehicles : List Vehicle
  selectedVehicles : List Vehicle
  autoSelectVehicles : Bool
  deriving DecidableEq

/-- `calculateTotalCapacity` of `TourCreatePage.tsx`: picks
`vehicles` or `selectedVehicles` according to `autoSelectVehicles` and
reduces `total + vehicle.capacity_adults + vehicle.capacity_children`
over it, starting from 0.  Note the two capacity dimensions are summed
into one number. -/
def calculateTotalCapacity (f : TourForm) : Nat :=
  let vehiclesToUse := if f.autoSelectVehicles then f.vehicles else f.selectedVehicles
  vehiclesToUse.foldl (fun total vehicle => total + vehicle.capacity_adults + vehicle.capacity_children) 0

/-- `calculateTotalGuests` of `TourCreatePage.tsx`: reduces
`total + guest.num_adults + guest.num_children` over `selectedGuests`,
starting from 0. -/
def calculateTotalGuests (f : TourForm) : Nat :=
  f.selectedGuests.foldl (fun total guest => total + guest.num_adults + guest.num_children) 0

/-- The distinct error messages `validateForm` can set (in source order). -/
inductive ValidationError where
  | noTourDate
  | noDestination
  | noGuests
  | noVehicles
  | insufficientCapacity
  deriving DecidableEq

/-- `validateForm` of `TourCreatePage.tsx`: the if-chain in source
order; `none` means the form is accepted (the function returned
`true`). -/
def validateForm (f : TourForm) : Option ValidationError :=
  if f.tourDate = none then some ValidationError.noTourDate
  else if f.destinationName = "" then some ValidationError.noDestination
  else if f.selectedGuests = [] then some ValidationError.noGuests
  else if f.autoSelectVehicles = false ∧ f.selectedVehicles = [] then some ValidationError.noVehicles
  else if calculateTotalCapacity f < calculateTotalGuests f then some ValidationError.insufficientCapacity
  else none

/-- Definition following the spec's words (§4.1), for comparison with
the code's validator: required capacity in the adults dimension, the
sum of the guests' adult counts. -/
def specRequiredAdults (gs : List Guest) : Nat :=
  (gs.map Guest.num_adults).sum

/-- Definition following the spec's words (§4.1): required capacity in
the children dimension. -/
def specRequiredChildren (gs : List Guest) : Nat :=
  (gs.map Guest.num_children).sum

/-- Definition following the spec's words (§4.1): available capacity in
the adults dimension across the candidate vehicles. -/
def specAvailableAdults (vs : List Vehicle) : Nat :=
  (vs.map Vehicle.capacity_adults).sum

/-- Definition following the spec's words (§4.1): available capacity in
the children dimension across the candidate vehicles. -/
def specAvailableChildren (vs : List Vehicle) : Nat :=
  (vs.map Vehicle.capacity_children).sum

/-- A guest party of three adults and no children. -/
def c1Guest : Guest :=
  { id := "g1", name := "Guest One", hotel_name := none, pickup_lat := none,
    pickup_lng := none, num_adults := 3, num_children := 0,
    preferred_pickup_start := none, preferred_pickup_end := none,
    phone := none, email := none, special_requirements := [] }

/-- A vehicle with no adult seats and three child seats. -/
def c1Vehicle : Vehicle :=
  { id := "v1", name := "Kids Van", capacity_adults := 0, capacity_children := 3,
    driver_name := none, driver_phone := none, current_lat := none,
    current_lng := none, vehicle_type := some VehicleType.van, fuel_type := none,
    license_plate := none, status := some VehicleStatus.available, equipment := [] }

/-- A fully filled form whose guests need 3 adult seats while the fleet
offers 0 adult seats (but 3 child seats). -/
def c1CForm : TourForm :=
  { tourDate := some "2026-01-01", activityType := "snorkeling",
    destinationName := "Kabira Bay", destinationLat := 0, destinationLng := 0,
    departureTime := some "08:00", selectedGuests := [c1Guest],
    vehicles := [c1Vehicle], selectedVehicles := [], autoSelectVehicles := true }

/-- Claim C1 counterexample: on `c1CForm` the required adult capacity
(3) exceeds the available adult capacity (0), yet `validateForm`
accepts the form and proceeds — the validator does not check the two
capacity dimensions separately. -/
theorem validateForm_ignores_adult_dimension :
    validateForm c1CForm = none ∧
    specAvailableAdults c1CForm.vehicles < specRequiredAdults c1CForm.selectedGuests ∧
    c1CForm.autoSelectVehicles = true := by
  refine ⟨by decide, by decide, rfl⟩

/-- Claim C1 (amended): once the emptiness checks pass, `validateForm`
fails with the capacity error exactly when the combined available
capacity (adult seats plus child seats, summed over the candidate
vehicles) is less than the combined guest count (adults plus children);
the two dimensions are pooled into a single number, not checked
separately. -/
theorem validateForm_checks_combined_capacity (f : TourForm)
    (h1 : f.tourDate ≠ none) (h2 : f.destinationName ≠ "")
    (h3 : f.selectedGuests ≠ [])
    (h4 : ¬(f.autoSelectVehicles = false ∧ f.selectedVehicles = [])) :
    (validateForm f = some ValidationError.insufficientCapacity ↔
      calculateTotalCapacity f < calculateTotalGuests f) := by
  unfold validateForm
  rw [if_neg h1, if_neg h2, if_neg h3, if_neg h4]
  by_cases h : calculateTotalCapacity f < calculateTotalGuests f
  · rw [if_pos h]
    simp [h]
  · rw [if_neg h]
    simp [h]

/-- A filled form with one adult guest and an empty fleet. -/
def c1WForm : TourForm :=
  { tourDate := some "2026-01-01", activityType := "snorkeling",
    destinationName := "Kabira Bay", destinationLat := 0, destinationLng := 0,
    departureTime := some "08:00",
    selectedGuests := [{ c1Guest with num_adults := 1 }],
    vehicles := [], selectedVehicles := [], autoSelectVehicles := true }

/-- Concrete run of `validateForm_checks_combined_capacity`: one adult
guest, no vehicles, so the combined capacity 0 is below the combined
guest count 1 and the form is rejected with the capacity error. -/
theorem validateForm_checks_combined_capacity_witness :
    validateForm c1WForm = some ValidationError.insufficientCapacity :=
  (validateForm_checks_combined_capacity c1WForm (by decide) (by decide)
    (by decide) (by decide)).mpr (by decide)

/-- Modelled from the spec: the Cluster/Assignment Engine (§4.2) is not
in the repository; a slot is one candidate vehicle's two-dimensional
capacity together with the guests assigned to it so far. -/
structure AssignSlot where
  capacity_adults : Nat
  capacity_children : Nat
  assigned : List Guest
  deriving DecidableEq

/-- Modelled from the spec: a guest fits a slot when adding their party
keeps both the adult and the child load within the slot's capacity. -/
def slotFits (g : Guest) (s : AssignSlot) : Bool :=
  decide ((s.assigned.map Guest.num_adults).sum + g.num_adults ≤ s.capacity_adults) &&
  decide ((s.assigned.map Guest.num_children).sum + g.num_children ≤ s.capacity_children)

/-- Modelled from the spec: place one guest into the first slot that
fits; `none` when no vehicle can take the guest (the engine then fails
with `InfeasibleAssignment` rather than dropping the guest). -/
def placeGuest (g : Guest) : List AssignSlot → Option (List AssignSlot)
  | [] => none
  | s :: rest =>
    if slotFits g s then some ({ s with assigned := g :: s.assigned } :: rest)
    else (placeGuest g rest).map (fun rest' => s :: rest')

/-- Modelled from the spec: assign every guest in order; the whole job
fails (returns `none`) as soon as one guest cannot be placed. -/
def assignGuests : List Guest → List AssignSlot → Option (List AssignSlot)
  | [], slots => some slots
  | g :: gs, slots => (placeGuest g slots).bind (assignGuests gs)

/-- All guests assigned across the slots, in slot order. -/
def assignedGuests : List AssignSlot → List Guest
  | [] => []
  | s :: rest => s.assigned ++ assignedGuests rest

/-- The empty slot opened for one candidate vehicle. -/
def emptySlotOfVehicle (v : Vehicle) : AssignSlot :=
  { capacity_adults := v.capacity_adults,
    capacity_children := v.capacity_children, assigned := [] }

theorem placeGuest_perm (g : Guest) :
    ∀ (slots slots' : List AssignSlot), placeGuest g slots = some slots' →
      List.Perm (assignedGuests slots') (g :: assignedGuests slots) := by
  intro slots
  induction slots with
  | nil => intro slots' h; simp [placeGuest] at h
  | cons s rest ih =>
    intro slots' h
    rw [placeGuest] at h
    split at h
    · cases h
      simp [assignedGuests]
    · rw [Option.map_eq_some'] at h
      obtain ⟨rest', hrest, rfl⟩ := h
      have hp := ih rest' hrest
      simp only [assignedGuests]
      exact (List.Perm.append_left s.assigned hp).trans List.perm_middle

theorem assignGuests_perm :
    ∀ (gs : List Guest) (slots slots' : List AssignSlot),
      assignGuests gs slots = some slots' →
      List.Perm (assignedGuests slots') (gs ++ assignedGuests slots) := by
  intro gs
  induction gs with
  | nil =>
    intro slots slots' h
    rw [assignGuests] at h
    cases h
    simp
  | cons g gs ih =>
    intro slots slots' h
    rw [assignGuests, Option.bind_eq_some] at h
    obtain ⟨mid, hmid, hrec⟩ := h
    have h1 := placeGuest_perm g slots mid hmid
    have h2 := ih mid slots' hrec
    refine h2.trans ?_
    exact (List.Perm.append_left gs h1).trans List.perm_middle

theorem assignedGuests_of_empty_slots :
    ∀ vs : List Vehicle, assignedGuests (vs.map emptySlotOfVehicle) = [] := by
  intro vs
  induction vs with
  | nil => rfl
  | cons v vs ih => simp [assignedGuests, emptySlotOfVehicle, ih]

/-- Claim C2: when the assignment engine completes, the guests placed
across all vehicle slots are a permutation of the tour's input guest
list — every input guest id appears in exactly one slot, with no
duplicates and no omissions; and if some guest cannot be placed the
whole job fails (`none`) rather than dropping the guest. -/
theorem assignGuests_exact_cover (gs : List Guest) (vs : List Vehicle)
    (slots' : List AssignSlot)
    (h : assignGuests gs (vs.map emptySlotOfVehicle) = some slots') :
    List.Perm ((assignedGuests slots').map Guest.id) (gs.map Guest.id) ∧
    (∀ (g : Guest) (gs0 : List Guest) (slots0 : List AssignSlot),
      placeGuest g slots0 = none → assignGuests (g :: gs0) slots0 = none) := by
  constructor
  · have hp := assignGuests_perm gs (vs.map emptySlotOfVehicle) slots' h
    rw [assignedGuests_of_empty_slots] at hp
    simpa using hp.map Guest.id
  · intro g gs0 slots0 h0
    simp [assignGuests, h0]

/-- A one-adult guest party. -/
def c2Guest : Guest :=
  { c1Guest with id := "g2", num_adults := 1 }

/-- A vehicle with two adult seats and one child seat. -/
def c2Vehicle : Vehicle :=
  { c1Vehicle with id := "v2", capacity_adults := 2, capacity_children := 1 }

/-- The slot state after assigning `c2Guest` to `c2Vehicle`. -/
def c2Slots : List AssignSlot :=
  [{ capacity_adults := 2, capacity_children := 1, assigned := [c2Guest] }]

/-- Concrete run of `assignGuests_exact_cover`: the single guest "g2"
is placed and the assigned ids are exactly the input ids. -/
theorem assignGuests_exact_cover_witness :
    List.Perm ((assignedGuests c2Slots).map Guest.id) ([c2Guest].map Guest.id) :=
  (assignGuests_exact_cover [c2Guest] [c2Vehicle] c2Slots (by decide)).1

/-- The status union type inside `OptimizationJobStatus` in `types.ts`:
`'pending' | 'processing' | 'completed' | 'failed'`. -/
inductive OptimizationJobState where
  | pending
  | processing
  | completed
  | failed
  deriving DecidableEq

/-- The string values of the status union type of `OptimizationJobStatus`
in `types.ts`, in declaration order. -/
def optimizationJobStatusValues : List String :=
  ["pending", "processing", "completed", "failed"]

/-- The `OptimizationJobStatus` interface of `types.ts`. -/
structure OptimizationJobStatus where
  job_id : String
  status : OptimizationJobState
  created_at : String
  updated_at : String
  estimated_completion_seconds : Option Nat
  progress_percentage : Nat
  result : Option String
  error_message : Option String
  deriving DecidableEq

/-- The field names the `OptimizationJobStatus` interface declares, in
declaration order. -/
def optimizationJobStatusFields : List String :=
  ["job_id", "status", "created_at", "updated_at",
   "estimated_completion_seconds", "progress_percentage", "result",
   "error_message"]

/-- Modelled from the spec: the Job Orchestrator's transitions (§4.5)
are not in the repository; the relation is restricted to the four
status values the code declares. -/
def jobStepAllowed : OptimizationJobState → OptimizationJobState → Bool
  | OptimizationJobState.pending, OptimizationJobState.processing => true
  | OptimizationJobState.processing, OptimizationJobState.completed => true
  | OptimizationJobState.processing, OptimizationJobState.failed => true
  | _, _ => false

/-- Claim C3 counterexample: the job status type declared by the code
has four values and `cancelled` is not one of them, so the state does
not range over the five claimed values and `cancelled` is not a
reachable job state. -/
theorem jobStatus_cancelled_not_a_state :
    optimizationJobStatusValues.contains "cancelled" = false ∧
    optimizationJobStatusValues.length = 4 := by
  refine ⟨by decide, rfl⟩

/-- Claim C3 (amended): the job state ranges over exactly the four
values pending, processing, completed and failed — `cancelled` is not
among them — and every allowed transition of the orchestration model
follows pending → processing → (completed | failed). -/
theorem jobStatus_four_states_and_transitions :
    optimizationJobStatusValues = ["pending", "processing", "completed", "failed"] ∧
    optimizationJobStatusValues.contains "cancelled" = false ∧
    (∀ s s' : OptimizationJobState, jobStepAllowed s s' = true ↔
      (s = OptimizationJobState.pending ∧ s' = OptimizationJobState.processing) ∨
      (s = OptimizationJobState.processing ∧
        (s' = OptimizationJobState.completed ∨ s' = OptimizationJobState.failed))) := by
  refine ⟨rfl, by decide, ?_⟩
  intro s s'
  cases s <;> cases s' <;> simp [jobStepAllowed]

/-- The request `handleOptimize` in `OptimizationPage.tsx` sends: a
POST to the tour's optimize path whose body is empty — the component's
`strategy` state is taken as a parameter because the page holds it, but
the request carries no strategy. -/
structure OptimizeSubmission where
  url_tour_id : String
  strategy_in_body : Option String
  deriving DecidableEq

/-- `handleOptimize` of `OptimizationPage.tsx`: posts to
`/tours/` ++ id ++ `/optimize` with no request body, whatever strategy
the user selected. -/
def handleOptimizeRequest (id : String) (strategy : String) : OptimizeSubmission :=
  { url_tour_id := id, strategy_in_body := none }

/-- Claim C4: the submission built by `handleOptimize` carries no
strategy in its body and is the same request whatever strategy the
caller selected — the chosen strategy is not conveyed.  (The spec's
intended contract sends the selected strategy override; the page's
`strategy` state is dead.) -/
theorem handleOptimize_does_not_send_strategy :
    ∀ (id strategy : String),
      (handleOptimizeRequest id strategy).strategy_in_body = none ∧
      handleOptimizeRequest id strategy = handleOptimizeRequest id "balanced" := by
  intro id strategy
  exact ⟨rfl, rfl⟩

/-- The error surfaced by `pollOptimizationStatus` from one status
response: when the status is `failed` the client shows
`error_message || '最適化に失敗しました'`; otherwise no error is set by
this branch. -/
def pollErrorSurfaced (status : OptimizationJobState)
    (error_message : Option String) : Option String :=
  if status = OptimizationJobState.failed then
    some (error_message.getD "最適化に失敗しました")
  else none

/-- Claim C5 counterexample: the `OptimizationJobStatus` interface the
status query returns declares no `current_step` field, so the query
does not return a human-readable current-step label. -/
theorem jobStatus_has_no_step_label :
    optimizationJobStatusFields.contains "current_step" = false := by
  decide

/-- Claim C5 (amended): the status query's declared shape carries the
job's state, its progress percentage and an optional error message —
but no current-step label field — and the polling client surfaces an
error message exactly when the reported state is `failed`. -/
theorem jobStatus_query_fields :
    optimizationJobStatusFields.contains "status" = true ∧
    optimizationJobStatusFields.contains "progress_percentage" = true ∧
    optimizationJobStatusFields.contains "error_message" = true ∧
    optimizationJobStatusFields.contains "current_step" = false ∧
    (∀ (st : OptimizationJobState) (msg : Option String),
      (pollErrorSurfaced st msg).isSome =
        decide (st = OptimizationJobState.failed)) := by
  refine ⟨by decide, by decide, by decide, by decide, ?_⟩
  intro st msg
  cases st <;> simp [pollErrorSurfaced]

/-- `loadGuestsAndVehicles` of `TourCreatePage.tsx`: stores the fetched
guests unchanged and keeps only the vehicles whose `status` is
`'available'` (`vehiclesRes.data.filter(v => v.status === 'available')`). -/
def loadGuestsAndVehicles (guestsRes : List Guest) (vehiclesRes : List Vehicle) :
    List Guest × List Vehicle :=
  (guestsRes, vehiclesRes.filter (fun v => decide (v.status = some VehicleStatus.available)))

/-- Claim C7: the candidate vehicle list offered for selection is
exactly the sublist of the fetched vehicles whose status equals
`available`: membership is equivalent to being a fetched vehicle with
status `available`, and the candidate list is an order-preserving
sublist of the fetched list. -/
theorem loadGuestsAndVehicles_available_only :
    ∀ (gs : List Guest) (vs : List Vehicle),
      (∀ v : Vehicle, v ∈ (loadGuestsAndVehicles gs vs).2 ↔
        v ∈ vs ∧ v.status = some VehicleStatus.available) ∧
      ((loadGuestsAndVehicles gs vs).2).Sublist vs ∧
      (loadGuestsAndVehicles gs vs).1 = gs := by
  intro gs vs
  refine ⟨?_, ?_, rfl⟩
  · intro v
    simp [loadGuestsAndVehicles, List.mem_filter]
  · exact List.filter_sublist vs

/-- The polling period of `pollOptimizationStatus` in
`OptimizationPage.tsx`: `setInterval(..., 1000)`. -/
def pollIntervalMs : Nat := 1000

/-- Whether one status response makes `pollOptimizationStatus` call
`clearInterval`: only the `completed` and `failed` branches do (a
thrown request also clears, modelled separately as no response). -/
def pollClearsInterval : OptimizationJobState → Bool
  | OptimizationJobState.completed => true
  | OptimizationJobState.failed => true
  | _ => false

/-- Whether the interval is still active after `n` poll ticks, given
the status reported at each tick. -/
def pollActiveAfter (f : Nat → OptimizationJobState) : Nat → Bool
  | 0 => true
  | n + 1 => pollActiveAfter f n && !(pollClearsInterval (f n))

/-- Claim C8: the poll runs every 1000 ms, a response clears the
interval exactly when its state is `completed` or `failed`, and for
every job whose reported state never reaches one of those two values
the interval stays active after every number of ticks — polling never
terminates. -/
theorem pollOptimizationStatus_never_terminates :
    pollIntervalMs = 1000 ∧
    (∀ s, pollClearsInterval s = true ↔
      (s = OptimizationJobState.completed ∨ s = OptimizationJobState.failed)) ∧
    (∀ f : Nat → OptimizationJobState,
      (∀ n, f n ≠ OptimizationJobState.completed ∧ f n ≠ OptimizationJobState.failed) →
      ∀ n, pollActiveAfter f n = true) := by
  refine ⟨rfl, ?_, ?_⟩
  · intro s
    cases s <;> simp [pollClearsInterval]
  · intro f hf n
    induction n with
    | zero => rfl
    | succ k ih =>
      have h := hf k
      have hc : pollClearsInterval (f k) = false := by
        cases hk : f k with
        | completed => exact absurd hk h.1
        | failed => exact absurd hk h.2
        | pending => rfl
        | processing => rfl
      simp [pollActiveAfter, ih, hc]

namespace OptimizationMap

/-- The `Location` interface of `OptimizationMap.tsx`. -/
structure Location where
  name : String
  lat : ℚ
  lng : ℚ
  deriving DecidableEq

/-- The `RouteSegment` interface of `OptimizationMap.tsx`. -/
structure RouteSegment where
  from_location : Location
  to_location : Location
  guest_id : Option String
  arrival_time : String
  deriving DecidableEq

/-- The `VehicleRoute` interface of `OptimizationMap.tsx`. -/
structure VehicleRoute where
  vehicle_id : String
  vehicle_name : String
  route_segments : List RouteSegment
  total_distance_km : ℚ
  efficiency_score : ℚ
  deriving DecidableEq

/-- The Directions request the route-rendering effect builds:
origin from `route.route_segments[0].from_location`, the given
destination, and one waypoint per segment with a non-null guest. -/
structure DirectionsRequest where
  origin : Location
  destination : Location
  waypoints : List Location
  deriving DecidableEq

/-- The per-route body of the rendering effect in
`OptimizationMap.tsx`: waypoints from the segments with a guest, then
the origin read unconditionally from `route.route_segments[0]` — on an
empty `route_segments` array that read is out of bounds (`undefined` in
the source), modelled as `none`. -/
def buildDirectionsRequest (destination : Location) (route : VehicleRoute) :
    Option DirectionsRequest :=
  match route.route_segments with
  | [] => none
  | seg :: _ =>
    some { origin := seg.from_location
           destination := destination
           waypoints := (route.route_segments.filter
             (fun s => s.guest_id.isSome)).map RouteSegment.from_location }

end OptimizationMap

/-- The shared destination used in the map examples. -/
def c9Destination : OptimizationMap.Location :=
  { name := "Kabira Bay", lat := 0, lng := 0 }

/-- A vehicle route whose `route_segments` array is empty. -/
def c9EmptyRoute : OptimizationMap.VehicleRoute :=
  { vehicle_id := "v1", vehicle_name := "Van 1", route_segments := [],
    total_distance_km := 0, efficiency_score := 0 }

/-- A one-segment pickup route. -/
def c9Route : OptimizationMap.VehicleRoute :=
  { vehicle_id := "v1", vehicle_name := "Van 1",
    route_segments := [{ from_location := { name := "Hotel A", lat := 1, lng := 1 },
                         to_location := { name := "Kabira Bay", lat := 0, lng := 0 },
                         guest_id := some "g1", arrival_time := "08:10" }],
    total_distance_km := 3, efficiency_score := 1 }

/-- Claim C9: the route-rendering effect of `OptimizationMap` is
well-defined on every route that has at least one segment (the built
request exists), and on a route with an empty `route_segments` array
the unchecked `route_segments[0]` access is out of bounds — the build
yields no request. -/
theorem optimizationMap_requires_nonempty_segments :
    (∀ (d : OptimizationMap.Location) (r : OptimizationMap.VehicleRoute),
      r.route_segments ≠ [] →
      (OptimizationMap.buildDirectionsRequest d r).isSome = true) ∧
    OptimizationMap.buildDirectionsRequest c9Destination c9EmptyRoute = none := by
  constructor
  · intro d r h
    unfold OptimizationMap.buildDirectionsRequest
    split
    · next heq => exact absurd heq h
    · rfl
  · rfl

/-- The payload `handleSubmit` of `TourCreatePage.tsx` posts to
`/tours`. -/
structure TourPayload where
  tour_date : String
  activity_type : String
  destination_name : String
  destination_lat : ℚ
  destination_lng : ℚ
  departure_time : String
  participant_ids : List String
  vehicle_ids : Option (List String)
  status : String
  optimization_strategy : String
  deriving DecidableEq

/-- The payload construction inside `handleSubmit` of
`TourCreatePage.tsx`: the date and time collapse to strings
(`departure_time` defaults to "08:00"), `participant_ids` are the
selected guests' ids, `vehicle_ids` is `undefined` under auto-select
and the selected vehicles' ids otherwise, and `status` and
`optimization_strategy` are the literals `'planning'` and
`'balanced'`. -/
def handleSubmitPayload (f : TourForm) : TourPayload :=
  { tour_date := f.tourDate.getD ""
    activity_type := f.activityType
    destination_name := f.destinationName
    destination_lat := f.destinationLat
    destination_lng := f.destinationLng
    departure_time := f.departureTime.getD "08:00"
    participant_ids := f.selectedGuests.map Guest.id
    vehicle_ids := if f.autoSelectVehicles then none
      else some (f.selectedVehicles.map Vehicle.id)
    status := "planning"
    optimization_strategy := "balanced" }

/-- Claim C10: for every form state the created tour is submitted with
status `planning` and optimization strategy `balanced`; the two fields
are the same across any two form states (independent of every user
selection), and `vehicle_ids` is omitted exactly when auto-select is
chosen. -/
theorem handleSubmit_constant_status_and_strategy :
    ∀ f g : TourForm,
      (handleSubmitPayload f).status = "planning" ∧
      (handleSubmitPayload f).optimization_strategy = "balanced" ∧
      ((handleSubmitPayload f).vehicle_ids = none ↔ f.autoSelectVehicles = true) ∧
      (handleSubmitPayload f).status = (handleSubmitPayload g).status ∧
      (handleSubmitPayload f).optimization_strategy =
        (handleSubmitPayload g).optimization_strategy := by
  intro f g
  refine ⟨rfl, rfl, ?_, rfl, rfl⟩
  cases h : f.autoSelectVehicles <;> simp [handleSubmitPayload, h]

/-- The three optimization strategies offered by the strategy selector
(`safety`, `efficiency`, `balanced`). -/
inductive Strategy where
  | safety
  | efficiency
  | balanced
  deriving DecidableEq

/-- Modelled from the spec: the Objective Evaluator (§4.4) is not in
the repository; the weight tuple (distance, time, buffer) each strategy
maps to, from the table in §4.4.  Each tuple sums to 1. -/
def strategyWeights : Strategy → ℚ × ℚ × ℚ
  | Strategy.efficiency => (1/2, 2/5, 1/10)
  | Strategy.balanced => (7/20, 7/20, 3/10)
  | Strategy.safety => (1/5, 1/5, 3/5)

/-- Modelled from the spec: the scalar efficiency score, the weighted
combination of the normalized distance, time and buffer components
(each normalized into [0,1] against the best and worst candidates of
the same run). -/
def efficiencyScore (strat : Strategy) (d t b : ℚ) : ℚ :=
  (strategyWeights strat).1 * d + (strategyWeights strat).2.1 * t +
    (strategyWeights strat).2.2 * b

/-- The result's averaged total: the mean of the per-route scores
(0 for an empty route list, as rational division by zero is 0). -/
def averageEfficiencyScore (scores : List ℚ) : ℚ :=
  scores.sum / (scores.length : ℚ)

theorem list_sum_le_length (l : List ℚ) (h : ∀ x ∈ l, x ≤ 1) :
    l.sum ≤ (l.length : ℚ) := by
  induction l with
  | nil => simp
  | cons a t ih =>
    simp only [List.sum_cons, List.length_cons]
    push_cast
    have ha := h a (List.mem_cons_self a t)
    have ht := ih (fun x hx => h x (List.mem_cons_of_mem a hx))
    linarith

/-- Claim C6: with every normalized component in [0,1], the efficiency
score of each route lies in [0,1] under every strategy, and the
averaged total over per-route scores that lie in [0,1] lies in [0,1]
as well. -/
theorem efficiencyScore_unit_interval (strat : Strategy) (d t b : ℚ)
    (scores : List ℚ)
    (hd0 : 0 ≤ d) (hd1 : d ≤ 1) (ht0 : 0 ≤ t) (ht1 : t ≤ 1)
    (hb0 : 0 ≤ b) (hb1 : b ≤ 1)
    (hs : ∀ x ∈ scores, 0 ≤ x ∧ x ≤ 1) :
    (0 ≤ efficiencyScore strat d t b ∧ efficiencyScore strat d t b ≤ 1) ∧
    (0 ≤ averageEfficiencyScore scores ∧ averageEfficiencyScore scores ≤ 1) := by
  constructor
  · cases strat <;>
      (simp only [efficiencyScore, strategyWeights]; constructor <;> linarith)
  · by_cases hnil : scores = []
    · subst hnil
      simp [averageEfficiencyScore]
    · have hlen : 0 < (scores.length : ℚ) := by
        exact_mod_cast List.length_pos.mpr hnil
      constructor
      · exact div_nonneg (List.sum_nonneg (fun x hx => (hs x hx).1)) hlen.le
      · rw [averageEfficiencyScore, div_le_one hlen]
        exact list_sum_le_length scores (fun x hx => (hs x hx).2)

/-- Concrete run of `efficiencyScore_unit_interval`: the balanced
strategy at components 1/2 each, and the average of [1/2, 1], all land
in [0,1]. -/
theorem efficiencyScore_unit_interval_witness :
    (0 ≤ efficiencyScore Strategy.balanced (1/2) (1/2) (1/2) ∧
      efficiencyScore Strategy.balanced (1/2) (1/2) (1/2) ≤ 1) ∧
    (0 ≤ averageEfficiencyScore [1/2, 1] ∧
      averageEfficiencyScore [1/2, 1] ≤ 1) :=
  efficiencyScore_unit_interval Strategy.balanced (1/2) (1/2) (1/2) [1/2, 1]
    (by norm_num) (by norm_num) (by norm_num) (by norm_num) (by norm_num)
    (by norm_num)
    (by
      intro x hx
      rcases List.mem_cons.mp hx with h | h
      · subst h; constructor <;> norm_num
      · rcases List.mem_singleton.mp h with rfl
        constructor <;> norm_num)
